import Mathlib

/-!
Shallow embedding of `src/app.py` (avocado analytics dashboard).

The source is a pandas/Dash application.  The logic embedded here:

* lines 5-9   : `data` — read the CSV, parse the `Date` column, sort ascending by date;
* lines 10-11 : `regions`, `avocado_types` — distinct sorted values of the
  `region` / `type` columns (`Series.sort_values().unique()`);
* lines 129-227 : the `update_charts(region, avocado_type, start_date, end_date)`
  callback — a query filter, a group-by-year aggregation (mean of
  `AveragePrice`, sum of `Total Volume`), and a top-10 region ranking.

Modelling decisions:

* A row of the CSV is a `Row`; the `type` column is the field `rtype`
  (`type` is a Lean keyword), `AveragePrice` is `averagePrice`,
  `Total Volume` is `totalVolume`.
* Dates have calendar-day granularity (the CSV `Date` column is `YYYY-MM-DD`);
  a `Date` compares lexicographically on (year, month, day), exactly as the
  parsed pandas timestamps compare.
* Numeric columns are embedded as `Rat`; the claims under study are about
  which records are aggregated, not about floating-point rounding.
* pandas sorts are embedded with `List.insertionSort`.  pandas
  `sort_values` defaults to `kind="quicksort"`, whose permutation of equal
  keys is a numpy implementation detail; every theorem below about a sorted
  result is invariant under the permutation of equal keys, except where a
  claim is explicitly about tie order (discussed at the claim).
* `Series.unique()` keeps the first occurrence of each value, in order of
  appearance; `uniqueFirst` below is that operation.
* A `Frame` carries the rows plus the optional ad hoc `Year` column that
  line 134 of the source assigns; `DataFrame.query` returns a new frame
  (pandas `query` copies), which is what makes the shared `data` immutable
  across calls.
-/

/-- A calendar date, as parsed from the `Date` column (`%Y-%m-%d`). -/
structure Date where
  year : Nat
  month : Nat
  day : Nat
deriving DecidableEq, Repr

/-- Comparison of parsed dates: lexicographic on (year, month, day), the
order pandas timestamps obtained from `%Y-%m-%d` strings compare in. -/
def Date.le (a b : Date) : Bool :=
  if a.year < b.year then true
  else if b.year < a.year then false
  else if a.month < b.month then true
  else if b.month < a.month then false
  else decide (a.day ≤ b.day)

theorem Date.le_iff (a b : Date) :
    Date.le a b = true ↔
      a.year < b.year ∨ (a.year = b.year ∧
        (a.month < b.month ∨ (a.month = b.month ∧ a.day ≤ b.day))) := by
  unfold Date.le
  split_ifs <;> simp <;> omega

theorem Date.le_trans {a b c : Date} (h1 : Date.le a b = true)
    (h2 : Date.le b c = true) : Date.le a c = true := by
  rw [Date.le_iff] at *
  omega

theorem Date.le_total (a b : Date) :
    Date.le a b = true ∨ Date.le b a = true := by
  rw [Date.le_iff, Date.le_iff]
  omega

instance : LE Date := ⟨fun a b => Date.le a b = true⟩

instance : LT Date := ⟨fun a b => ¬ Date.le b a = true⟩

instance (a b : Date) : Decidable (a ≤ b) := by
  change Decidable (Date.le a b = true)
  infer_instance

instance (a b : Date) : Decidable (a < b) := by
  change Decidable (¬ Date.le b a = true)
  infer_instance

theorem Date.le_def (a b : Date) : a ≤ b ↔ Date.le a b = true := Iff.rfl

theorem Date.lt_def (a b : Date) : a < b ↔ ¬ Date.le b a = true := Iff.rfl

/-- One row of `avocado.csv`, after the date coercion of line 7.  `rtype` is
the CSV column `type`, `averagePrice` is `AveragePrice`, `totalVolume` is
`Total Volume`. -/
structure Row where
  date : Date
  rtype : String
  region : String
  averagePrice : Rat
  totalVolume : Rat
deriving DecidableEq, Repr

/-- Helper for `uniqueFirst`: drop every element already in `seen`, keep
the first occurrence of everything else, threading the seen set. -/
def uniqueFirstAux {α : Type} [DecidableEq α] (seen : List α) : List α → List α
  | [] => []
  | x :: xs =>
      if x ∈ seen then uniqueFirstAux seen xs
      else x :: uniqueFirstAux (x :: seen) xs

/-- `Series.unique()`: the distinct values in order of first appearance. -/
def uniqueFirst {α : Type} [DecidableEq α] (l : List α) : List α :=
  uniqueFirstAux [] l

theorem uniqueFirstAux_sublist {α : Type} [DecidableEq α] (seen l : List α) :
    (uniqueFirstAux seen l).Sublist l := by
  induction l generalizing seen with
  | nil => simp [uniqueFirstAux]
  | cons x xs ih =>
    rw [uniqueFirstAux]
    split
    · exact (ih seen).cons x
    · exact (ih (x :: seen)).cons₂ x

theorem uniqueFirst_sublist {α : Type} [DecidableEq α] (l : List α) :
    (uniqueFirst l).Sublist l :=
  uniqueFirstAux_sublist [] l

theorem mem_uniqueFirstAux {α : Type} [DecidableEq α] (seen l : List α) (a : α) :
    a ∈ uniqueFirstAux seen l ↔ a ∈ l ∧ a ∉ seen := by
  induction l generalizing seen with
  | nil => simp [uniqueFirstAux]
  | cons x xs ih =>
    rw [uniqueFirstAux]
    split
    · rename_i hx
      rw [ih seen]
      simp only [List.mem_cons]
      constructor
      · rintro ⟨h1, h2⟩
        exact ⟨Or.inr h1, h2⟩
      · rintro ⟨h1 | h1, h2⟩
        · exact absurd (h1 ▸ hx) h2
        · exact ⟨h1, h2⟩
    · rename_i hx
      simp only [List.mem_cons, ih (x :: seen)]
      by_cases hax : a = x
      · simp [hax, hx]
      · simp [hax]

theorem mem_uniqueFirst {α : Type} [DecidableEq α] (l : List α) (a : α) :
    a ∈ uniqueFirst l ↔ a ∈ l := by
  rw [uniqueFirst, mem_uniqueFirstAux]
  simp

theorem nodup_uniqueFirstAux {α : Type} [DecidableEq α] (seen l : List α) :
    (uniqueFirstAux seen l).Nodup := by
  induction l generalizing seen with
  | nil => simp [uniqueFirstAux]
  | cons x xs ih =>
    rw [uniqueFirstAux]
    split
    · exact ih seen
    · refine List.Nodup.cons ?_ (ih (x :: seen))
      intro hx
      have := (mem_uniqueFirstAux (x :: seen) xs x).mp hx
      simp at this

theorem nodup_uniqueFirst {α : Type} [DecidableEq α] (l : List α) :
    (uniqueFirst l).Nodup :=
  nodup_uniqueFirstAux [] l

theorem sorted_uniqueFirst {α : Type} [DecidableEq α] {r : α → α → Prop}
    {l : List α} (h : l.Sorted r) : (uniqueFirst l).Sorted r :=
  h.sublist (uniqueFirst_sublist l)

/-- The relation rows are sorted by on line 8 (`sort_values(by="Date")`):
ascending date. -/
def rowDateLe (a b : Row) : Prop := Date.le a.date b.date = true

instance : DecidableRel rowDateLe := fun a b => by
  unfold rowDateLe
  infer_instance

instance : IsTotal Row rowDateLe := ⟨fun a b => Date.le_total a.date b.date⟩

instance : IsTrans Row rowDateLe := ⟨fun _ _ _ => Date.le_trans⟩

/-- Lines 5-9: `data = pd.read_csv(...).assign(Date=to_datetime(...)).sort_values(by="Date")`.
The raw rows (dates already coerced) sorted ascending by date.  The source
sort is pandas default `kind="quicksort"`; the permutation it applies to
rows of equal date is a numpy implementation detail, so this model's choice
of a stable sort fixes one member of the family of behaviours the source
admits.  No claim theorem below depends on the tie permutation of this sort. -/
def loadData (raw : List Row) : List Row := List.insertionSort rowDateLe raw

/-- Line 10: `regions = data["region"].sort_values().unique()` —
sort the `region` column ascending, then keep first occurrences. -/
def regions (rows : List Row) : List String :=
  uniqueFirst (List.insertionSort (· ≤ ·) (rows.map Row.region))

/-- Line 11: `avocado_types = data["type"].sort_values().unique()`. -/
def avocado_types (rows : List Row) : List String :=
  uniqueFirst (List.insertionSort (· ≤ ·) (rows.map Row.rtype))

/-- An in-memory dataframe: its rows, plus the ad hoc `Year` column that
line 134 assigns (absent until then). -/
structure Frame where
  rows : List Row
  yearCol : Option (List Nat)
deriving DecidableEq, Repr

/-- `DataFrame.query(pred)`: pandas builds a NEW dataframe holding the rows
satisfying the predicate (row order preserved); the result does not alias
the queried frame, and it carries only the CSV columns. -/
def Frame.query (df : Frame) (p : Row → Bool) : Frame :=
  { rows := df.rows.filter p, yearCol := none }

/-- Line 134: `filtered_data["Year"] = filtered_data["Date"].dt.year` —
assign the derived year column on the (copied) filtered frame. -/
def Frame.assignYear (df : Frame) : Frame :=
  { rows := df.rows, yearCol := some (df.rows.map (fun r => r.date.year)) }

/-- Lines 130-132: the `data.query(...)` predicate of `update_charts`:
`region == @region and type == @avocado_type and Date >= @start_date and Date <= @end_date`. -/
def matchesFilter (region avocado_type : String) (start_date end_date : Date)
    (r : Row) : Bool :=
  r.region == region && r.rtype == avocado_type &&
    Date.le start_date r.date && Date.le r.date end_date

/-- Line 189: the `data.query(...)` predicate of the top-regions chart:
`type == @avocado_type and Date >= @start_date and Date <= @end_date`
(no region condition). -/
def typeDateMatches (avocado_type : String) (start_date end_date : Date)
    (r : Row) : Bool :=
  r.rtype == avocado_type && Date.le start_date r.date && Date.le r.date end_date

/-- One row of the `yearly_data` aggregate (lines 137-140):
group key `Year`, mean of `AveragePrice`, sum of `Total Volume`. -/
structure YearlyRow where
  year : Nat
  averagePrice : Rat
  totalVolume : Rat
deriving DecidableEq, Repr

/-- Lines 137-140: `filtered_data.groupby("Year", as_index=False).agg({"AveragePrice": "mean", "Total Volume": "sum"})`.
pandas groupby with the default `sort=True` emits one output row per
distinct key, keys ascending; `mean` is sum divided by group size, `sum`
is the group sum.  The `Year` key of a row is `r.date.year` (the lemma
`Frame.assignYear_yearCol` below checks the line-134 column is exactly
that). -/
def yearly_data (rs : List Row) : List YearlyRow :=
  (uniqueFirst (List.insertionSort (· ≤ ·) (rs.map (fun r => r.date.year)))).map
    (fun y =>
      let g := rs.filter (fun r => r.date.year == y)
      { year := y
        averagePrice := (g.map Row.averagePrice).sum / (g.length : Rat)
        totalVolume := (g.map Row.totalVolume).sum })

theorem Frame.assignYear_yearCol (df : Frame) :
    (Frame.assignYear df).yearCol = some (df.rows.map (fun r => r.date.year)) :=
  rfl

/-- One bar of the top-regions chart: a `region` and its summed
`Total Volume` (the `groupby("region")["Total Volume"].sum()` output). -/
structure RegionRow where
  region : String
  totalVolume : Rat
deriving DecidableEq, Repr

/-- Lines 188-191: `groupby("region", as_index=False)["Total Volume"].sum()` —
one row per distinct region (keys ascending, pandas default `sort=True`),
holding the group's summed volume. -/
def regionGroups (rs : List Row) : List RegionRow :=
  (uniqueFirst (List.insertionSort (· ≤ ·) (rs.map Row.region))).map
    (fun g =>
      { region := g
        totalVolume := ((rs.filter (fun r => r.region == g)).map Row.totalVolume).sum })

/-- The relation of line 192, `sort_values("Total Volume", ascending=False)`:
descending summed volume. -/
def volumeDesc (a b : RegionRow) : Prop := b.totalVolume ≤ a.totalVolume

instance : DecidableRel volumeDesc := fun a b => by
  unfold volumeDesc
  infer_instance

instance : IsTotal RegionRow volumeDesc := ⟨fun a b => le_total b.totalVolume a.totalVolume⟩

instance : IsTrans RegionRow volumeDesc := ⟨fun _ _ _ h1 h2 => le_trans h2 h1⟩

/-- Lines 188-194: the top-regions pipeline on the already
type/date-filtered rows: group by region, sort descending by summed
volume, `head(10)`.  As with `loadData`, the source sort is numpy
quicksort, so the permutation among groups of EQUAL summed volume is
implementation-defined; the claim theorems below only use properties
invariant under that permutation. -/
def top_regions (rs : List Row) : List RegionRow :=
  (List.insertionSort volumeDesc (regionGroups rs)).take 10

/-- The chart-ready data of the three figures the callback returns:
`yearly` carries the x/y columns of the price chart (`Year`,
`AveragePrice`) and of the volume chart (`Year`, `Total Volume`);
`top` carries the x/y columns of the top-region bar chart. -/
structure Charts where
  yearly : List YearlyRow
  top : List RegionRow
deriving DecidableEq, Repr

/-- Lines 130-134: `filtered_data` — the Step-1 query result with the
`Year` column line 134 assigns on it. -/
def filtered_data (df : Frame) (region avocado_type : String)
    (start_date end_date : Date) : Frame :=
  (df.query (matchesFilter region avocado_type start_date end_date)).assignYear

/-- Lines 129-227: the `update_charts` callback.  It reads the shared
frame `df` (the module-level `data`), queries it twice (lines 130 and
189), assigns the `Year` column on the first query's result (line 134),
aggregates, and builds the figures.  The shared frame is returned as the
second component: it is the state of `data` after the call (pandas `query`
copies, so the line-134 assignment lands on the copy). -/
def update_charts (df : Frame) (region avocado_type : String)
    (start_date end_date : Date) : Charts × Frame :=
  let fd : Frame := filtered_data df region avocado_type start_date end_date
  let yearly := yearly_data fd.rows
  let top := top_regions (df.query (typeDateMatches avocado_type start_date end_date)).rows
  ({ yearly := yearly, top := top }, df)

/-- Membership in a `sort_values().unique()`-style list is membership in
the underlying column. -/
theorem mem_sortedUnique {α : Type} [LinearOrder α] [DecidableEq α]
    (l : List α) (a : α) :
    a ∈ uniqueFirst (List.insertionSort (· ≤ ·) l) ↔ a ∈ l := by
  rw [mem_uniqueFirst, List.mem_insertionSort]

theorem nodup_sortedUnique {α : Type} [LinearOrder α] [DecidableEq α]
    (l : List α) : (uniqueFirst (List.insertionSort (· ≤ ·) l)).Nodup :=
  nodup_uniqueFirst _

theorem sorted_le_sortedUnique {α : Type} [LinearOrder α] [DecidableEq α]
    (l : List α) :
    (uniqueFirst (List.insertionSort (· ≤ ·) l)).Sorted (· ≤ ·) :=
  sorted_uniqueFirst (List.sorted_insertionSort _ l)

theorem sorted_lt_sortedUnique {α : Type} [LinearOrder α] [DecidableEq α]
    (l : List α) :
    (uniqueFirst (List.insertionSort (· ≤ ·) l)).Sorted (· < ·) :=
  (sorted_le_sortedUnique l).lt_of_le (nodup_sortedUnique l)

/-- The number of sorted-unique values is the number of distinct values. -/
theorem length_sortedUnique {α : Type} [LinearOrder α] [DecidableEq α]
    (l : List α) :
    (uniqueFirst (List.insertionSort (· ≤ ·) l)).length = l.toFinset.card := by
  have hset : (uniqueFirst (List.insertionSort (· ≤ ·) l)).toFinset = l.toFinset := by
    apply Finset.ext
    intro a
    simp only [List.mem_toFinset]
    exact mem_sortedUnique l a
  rw [← hset, List.toFinset_card_of_nodup (nodup_sortedUnique l)]

/-- A two-row fixture (the scenario of spec §8): two organic Albany rows
in 2015 and 2016. -/
def exRow1 : Row := ⟨⟨2015, 1, 4⟩, "organic", "Albany", 1, 100⟩

def exRow2 : Row := ⟨⟨2016, 1, 3⟩, "organic", "Albany", 2, 200⟩

def exDf : Frame := ⟨[exRow1, exRow2], none⟩

/-- C1: the Step 1 filter of the pipeline selects exactly the records whose
subcategory (`region`) equals the selected region, whose category (`type`)
equals the selected type, and whose date lies in the inclusive window
`[start_date, end_date]`. -/
theorem c1_step1_filter_exact (df : Frame) (region avocado_type : String)
    (start_date end_date : Date) (r : Row) :
    r ∈ (filtered_data df region avocado_type start_date end_date).rows ↔
      r ∈ df.rows ∧ r.region = region ∧ r.rtype = avocado_type ∧
        start_date ≤ r.date ∧ r.date ≤ end_date := by
  show r ∈ (df.rows.filter (matchesFilter region avocado_type start_date end_date)) ↔ _
  rw [List.mem_filter]
  unfold matchesFilter
  simp only [Bool.and_eq_true, beq_iff_eq, Date.le_def]
  tauto

/-- C8: the derived `regions` and `avocado_types` vocabularies hold exactly
the distinct values of the respective column, sorted strictly ascending by
string comparison (hence duplicate-free). -/
theorem c8_vocabularies_sorted_distinct (rows : List Row) :
    ((regions rows).Sorted (· < ·) ∧ (regions rows).Nodup ∧
      ∀ s, s ∈ regions rows ↔ s ∈ rows.map Row.region) ∧
    ((avocado_types rows).Sorted (· < ·) ∧ (avocado_types rows).Nodup ∧
      ∀ s, s ∈ avocado_types rows ↔ s ∈ rows.map Row.rtype) := by
  refine ⟨⟨sorted_lt_sortedUnique _, nodup_sortedUnique _, fun s => ?_⟩,
    ⟨sorted_lt_sortedUnique _, nodup_sortedUnique _, fun s => ?_⟩⟩
  · exact mem_sortedUnique _ s
  · exact mem_sortedUnique _ s

/-- C9: `update_charts` is a pure function of the record set and the four
filter parameters: two calls on identical arguments return identical
results, so in particular the relative order produced among subcategories
of equal summed volume is reproducible across repeated calls. -/
theorem c9_update_charts_deterministic (df1 df2 : Frame)
    (region1 region2 type1 type2 : String) (sd1 sd2 ed1 ed2 : Date)
    (hdf : df1 = df2) (hr : region1 = region2) (ht : type1 = type2)
    (hsd : sd1 = sd2) (hed : ed1 = ed2) :
    update_charts df1 region1 type1 sd1 ed1 =
      update_charts df2 region2 type2 sd2 ed2 := by
  subst hdf hr ht hsd hed
  rfl

theorem c9_update_charts_deterministic_witness :
    update_charts exDf "Albany" "organic" ⟨2015, 1, 1⟩ ⟨2018, 12, 31⟩ =
      update_charts exDf "Albany" "organic" ⟨2015, 1, 1⟩ ⟨2018, 12, 31⟩ :=
  c9_update_charts_deterministic exDf exDf "Albany" "Albany" "organic" "organic"
    ⟨2015, 1, 1⟩ ⟨2015, 1, 1⟩ ⟨2018, 12, 31⟩ ⟨2018, 12, 31⟩ rfl rfl rfl rfl rfl

/-- C10: a call of `update_charts` leaves the shared record set unchanged —
the frame handed back as the post-call state of the module-level `data` is
the input frame (rows and columns alike) — while the per-call `Year`
column exists only on the derived (copied) filtered frame. -/
theorem c10_shared_data_unchanged (df : Frame) (region avocado_type : String)
    (start_date end_date : Date) :
    (update_charts df region avocado_type start_date end_date).2 = df ∧
    (update_charts df region avocado_type start_date end_date).2.rows = df.rows ∧
    (update_charts df region avocado_type start_date end_date).2.yearCol = df.yearCol ∧
    (filtered_data df region avocado_type start_date end_date).yearCol =
      some (((df.query (matchesFilter region avocado_type start_date end_date)).rows).map
        (fun r => r.date.year)) :=
  ⟨rfl, rfl, rfl, rfl⟩

/-- C5: an inverted date range (`start_date > end_date`) makes both query
filters select nothing, so the yearly series, the top-regions ranking and
the Step-1 filtered set are all empty — the callback still returns a value
(every embedded operation is total), it does not fail. -/
theorem c5_inverted_range_empty (df : Frame) (region avocado_type : String)
    (start_date end_date : Date) (h : end_date < start_date) :
    ((update_charts df region avocado_type start_date end_date).1).yearly = [] ∧
    ((update_charts df region avocado_type start_date end_date).1).top = [] ∧
    (filtered_data df region avocado_type start_date end_date).rows = [] := by
  have hdate : ∀ r : Row,
      ¬ (Date.le start_date r.date = true ∧ Date.le r.date end_date = true) := by
    rintro r ⟨h1, h2⟩
    exact h (Date.le_trans h1 h2)
  have hf1 : df.rows.filter (matchesFilter region avocado_type start_date end_date) = [] := by
    rw [List.filter_eq_nil_iff]
    intro r _
    unfold matchesFilter
    simp only [Bool.and_eq_true, not_and]
    intro h1 h2
    exact (hdate r ⟨h1.2, h2⟩).elim
  have hf2 : df.rows.filter (typeDateMatches avocado_type start_date end_date) = [] := by
    rw [List.filter_eq_nil_iff]
    intro r _
    unfold typeDateMatches
    simp only [Bool.and_eq_true, not_and]
    intro h1 h2
    exact (hdate r ⟨h1.2, h2⟩).elim
  refine ⟨?_, ?_, ?_⟩
  · show yearly_data (df.rows.filter (matchesFilter region avocado_type start_date end_date)) = []
    rw [hf1]
    rfl
  · show top_regions (df.rows.filter (typeDateMatches avocado_type start_date end_date)) = []
    rw [hf2]
    rfl
  · exact hf1

theorem c5_inverted_range_empty_witness :
    ((update_charts exDf "Albany" "organic" ⟨2017, 6, 1⟩ ⟨2015, 6, 1⟩).1).yearly = [] ∧
    ((update_charts exDf "Albany" "organic" ⟨2017, 6, 1⟩ ⟨2015, 6, 1⟩).1).top = [] ∧
    (filtered_data exDf "Albany" "organic" ⟨2017, 6, 1⟩ ⟨2015, 6, 1⟩).rows = [] :=
  c5_inverted_range_empty exDf "Albany" "organic" ⟨2017, 6, 1⟩ ⟨2015, 6, 1⟩ (by decide)

/-- C6: a selection value outside the loader's derived vocabularies is
handled permissively: an unknown `type` empties both the yearly series and
the top-regions ranking, and an unknown `region` empties the yearly series
(the ranking ignores the region by design, claim C2); no error is raised —
the embedded callback is a total function. -/
theorem c6_unknown_selection_empty (df : Frame) (region avocado_type : String)
    (start_date end_date : Date) :
    (avocado_type ∉ avocado_types df.rows →
      ((update_charts df region avocado_type start_date end_date).1).yearly = [] ∧
      ((update_charts df region avocado_type start_date end_date).1).top = []) ∧
    (region ∉ regions df.rows →
      ((update_charts df region avocado_type start_date end_date).1).yearly = []) := by
  constructor
  · intro hnot
    have hty : ∀ r ∈ df.rows, r.rtype ≠ avocado_type := by
      intro r hr heq
      apply hnot
      unfold avocado_types
      rw [mem_sortedUnique]
      exact heq ▸ List.mem_map_of_mem Row.rtype hr
    have hf1 : df.rows.filter (matchesFilter region avocado_type start_date end_date) = [] := by
      rw [List.filter_eq_nil_iff]
      intro r hr
      unfold matchesFilter
      simp only [Bool.and_eq_true, beq_iff_eq, not_and]
      intro h1 _
      exact (hty r hr h1.1.2).elim
    have hf2 : df.rows.filter (typeDateMatches avocado_type start_date end_date) = [] := by
      rw [List.filter_eq_nil_iff]
      intro r hr
      unfold typeDateMatches
      simp only [Bool.and_eq_true, beq_iff_eq, not_and]
      intro h1 _
      exact (hty r hr h1.1).elim
    constructor
    · show yearly_data (df.rows.filter (matchesFilter region avocado_type start_date end_date)) = []
      rw [hf1]
      rfl
    · show top_regions (df.rows.filter (typeDateMatches avocado_type start_date end_date)) = []
      rw [hf2]
      rfl
  · intro hnot
    have hrg : ∀ r ∈ df.rows, r.region ≠ region := by
      intro r hr heq
      apply hnot
      unfold regions
      rw [mem_sortedUnique]
      exact heq ▸ List.mem_map_of_mem Row.region hr
    have hf1 : df.rows.filter (matchesFilter region avocado_type start_date end_date) = [] := by
      rw [List.filter_eq_nil_iff]
      intro r hr
      unfold matchesFilter
      simp only [Bool.and_eq_true, beq_iff_eq, not_and]
      intro h1 _
      exact (hrg r hr h1.1.1).elim
    show yearly_data (df.rows.filter (matchesFilter region avocado_type start_date end_date)) = []
    rw [hf1]
    rfl

theorem c6_unknown_selection_empty_witness :
    ("missing" ∉ avocado_types exDf.rows ∧ "Nowhere" ∉ regions exDf.rows) ∧
    (((update_charts exDf "Nowhere" "missing" ⟨2015, 1, 1⟩ ⟨2018, 12, 31⟩).1).yearly = [] ∧
      ((update_charts exDf "Nowhere" "missing" ⟨2015, 1, 1⟩ ⟨2018, 12, 31⟩).1).top = []) ∧
    ((update_charts exDf "Nowhere" "organic" ⟨2015, 1, 1⟩ ⟨2018, 12, 31⟩).1).yearly = [] := by
  refine ⟨⟨by with_unfolding_all decide, by with_unfolding_all decide⟩, ?_, ?_⟩
  · exact (c6_unknown_selection_empty exDf "Nowhere" "missing" ⟨2015, 1, 1⟩ ⟨2018, 12, 31⟩).1
      (by with_unfolding_all decide)
  · exact (c6_unknown_selection_empty exDf "Nowhere" "organic" ⟨2015, 1, 1⟩ ⟨2018, 12, 31⟩).2
      (by with_unfolding_all decide)

theorem length_regionGroups (rs : List Row) :
    (regionGroups rs).length = ((rs.map Row.region).toFinset).card := by
  unfold regionGroups
  rw [List.length_map]
  exact length_sortedUnique _

theorem top_regions_sorted (rs : List Row) :
    (top_regions rs).Sorted volumeDesc :=
  (List.sorted_insertionSort volumeDesc (regionGroups rs)).sublist
    (List.take_sublist 10 _)

theorem top_regions_mem_sum (rs : List Row) (e : RegionRow)
    (he : e ∈ top_regions rs) :
    e.totalVolume = ((rs.filter (fun r => r.region == e.region)).map Row.totalVolume).sum := by
  have h1 : e ∈ regionGroups rs := by
    have h2 : e ∈ List.insertionSort volumeDesc (regionGroups rs) :=
      (List.take_sublist 10 _).subset he
    exact (List.mem_insertionSort _).mp h2
  unfold regionGroups at h1
  obtain ⟨g, _, rfl⟩ := List.mem_map.mp h1
  rfl

/-- C2: the top-regions ranking is computed from the FULL record set
filtered only by `type` and the date window — the selected region never
enters it — so two calls differing only in the selected region agree on
`top`, and `top` can be non-empty while the region-filtered yearly series
is empty (concrete instance: the fixture frame with a region matching no
row). -/
theorem c2_top_ranking_ignores_region (df : Frame) (region1 region2 avocado_type : String)
    (start_date end_date : Date) :
    ((update_charts df region1 avocado_type start_date end_date).1).top =
      ((update_charts df region2 avocado_type start_date end_date).1).top ∧
    ((update_charts df region1 avocado_type start_date end_date).1).top =
      top_regions (df.rows.filter (typeDateMatches avocado_type start_date end_date)) ∧
    (∃ df0 region0 type0 sd0 ed0,
      ((update_charts df0 region0 type0 sd0 ed0).1).yearly = [] ∧
      ((update_charts df0 region0 type0 sd0 ed0).1).top ≠ []) := by
  refine ⟨rfl, rfl, exDf, "Boston", "organic", ⟨2015, 1, 1⟩, ⟨2018, 12, 31⟩, ?_, ?_⟩
  · with_unfolding_all rfl
  · with_unfolding_all decide

/-- C3: the ranking holds `min 10 (#distinct regions in the type/date
window)` entries, is sorted descending by summed volume (`volumeDesc`),
and each entry carries exactly the sum of `Total Volume` over the
window's rows of its region.  The relative order of entries of EQUAL
summed volume is deterministic in the sense that the whole ranking is a
pure function of the inputs (theorem `c9_update_charts_deterministic`);
the source realises it as the numpy quicksort permutation, which this
model fixes as a stable sort — no theorem here depends on which
permutation of equal-volume entries is used. -/
theorem c3_top_regions_shape (df : Frame) (region avocado_type : String)
    (start_date end_date : Date) :
    ((update_charts df region avocado_type start_date end_date).1).top.length =
      min 10 (((df.rows.filter (typeDateMatches avocado_type start_date end_date)).map
        Row.region).toFinset.card) ∧
    ((update_charts df region avocado_type start_date end_date).1).top.Sorted volumeDesc ∧
    (∀ e ∈ ((update_charts df region avocado_type start_date end_date).1).top,
      e.totalVolume =
        (((df.rows.filter (typeDateMatches avocado_type start_date end_date)).filter
          (fun r => r.region == e.region)).map Row.totalVolume).sum) := by
  refine ⟨?_, ?_, ?_⟩
  · show (top_regions (df.rows.filter (typeDateMatches avocado_type start_date end_date))).length = _
    unfold top_regions
    rw [List.length_take, List.length_insertionSort, length_regionGroups]
  · exact top_regions_sorted _
  · intro e he
    exact top_regions_mem_sum _ e he

theorem yearly_data_years (rs : List Row) :
    (yearly_data rs).map YearlyRow.year =
      uniqueFirst (List.insertionSort (· ≤ ·) (rs.map (fun r => r.date.year))) := by
  unfold yearly_data
  rw [List.map_map]
  exact List.map_id'' (fun _ => rfl) _

theorem yearly_data_mem_agg (rs : List Row) (e : YearlyRow)
    (he : e ∈ yearly_data rs) :
    e.averagePrice =
      ((rs.filter (fun r => r.date.year == e.year)).map Row.averagePrice).sum /
        ((rs.filter (fun r => r.date.year == e.year)).length : Rat) ∧
    e.totalVolume =
      ((rs.filter (fun r => r.date.year == e.year)).map Row.totalVolume).sum := by
  unfold yearly_data at he
  obtain ⟨y, _, rfl⟩ := List.mem_map.mp he
  exact ⟨rfl, rfl⟩

/-- C4: the yearly series has one entry per distinct calendar year of the
Step-1 filtered rows — its year column is strictly ascending and its years
are exactly the years occurring in the filtered set — and each entry
carries the arithmetic mean of `AveragePrice` (sum divided by group size)
and the sum of `Total Volume` over exactly the filtered rows of that
year. -/
theorem c4_yearly_aggregate (df : Frame) (region avocado_type : String)
    (start_date end_date : Date) :
    ((((update_charts df region avocado_type start_date end_date).1).yearly.map
      YearlyRow.year).Sorted (· < ·)) ∧
    (∀ y : Nat,
      y ∈ ((update_charts df region avocado_type start_date end_date).1).yearly.map
        YearlyRow.year ↔
      ∃ r ∈ (filtered_data df region avocado_type start_date end_date).rows,
        r.date.year = y) ∧
    (∀ e ∈ ((update_charts df region avocado_type start_date end_date).1).yearly,
      e.averagePrice =
        (((filtered_data df region avocado_type start_date end_date).rows.filter
          (fun r => r.date.year == e.year)).map Row.averagePrice).sum /
        (((filtered_data df region avocado_type start_date end_date).rows.filter
          (fun r => r.date.year == e.year)).length : Rat) ∧
      e.totalVolume =
        (((filtered_data df region avocado_type start_date end_date).rows.filter
          (fun r => r.date.year == e.year)).map Row.totalVolume).sum) := by
  have hdef : ((update_charts df region avocado_type start_date end_date).1).yearly
      = yearly_data (filtered_data df region avocado_type start_date end_date).rows := rfl
  refine ⟨?_, ?_, ?_⟩
  · rw [hdef, yearly_data_years]
    exact sorted_lt_sortedUnique _
  · intro y
    rw [hdef, yearly_data_years, mem_sortedUnique]
    simp [List.mem_map]
  · intro e he
    rw [hdef] at he
    exact yearly_data_mem_agg _ e he

/-- The loaded sequence is ascending by date.  What this development does
NOT establish (and does not claim) is stability of the source's sort:
line 8 uses pandas `sort_values` with its default `kind="quicksort"`, so
the relative order of rows with equal dates is whatever permutation
numpy's sort produces, not necessarily the input order. -/
theorem loadData_sorted (raw : List Row) : (loadData raw).Sorted rowDateLe :=
  List.sorted_insertionSort rowDateLe raw

theorem loadData_perm (raw : List Row) : (loadData raw).Perm raw :=
  List.perm_insertionSort rowDateLe raw
